import Mathlib

/-!
Verification of the connection-profile creation and validation logic of
`src/src/models/connectionProfile.ts` (class `ConnectionProfile`,
methods `createProfile`, `isValidProfile`, `isAzureActiveDirectory`).

The TypeScript class stores its credential fields as possibly-undefined
strings; JavaScript truthiness of such a field amounts to "the string is
present and non-empty", so fields are embedded as `String` with `""`
standing for an absent/undefined value.  `profileName` is set to the
explicit sentinel `undefined` by the code, so it is embedded as
`Option String`.
-/

namespace VscodeMssql

/-- JavaScript truthiness of a (possibly undefined) string field:
true iff the string is non-empty. -/
def truthy (s : String) : Bool := s ≠ ""

/-- Modelled from the spec: `utils.isNotEmpty` (module `./utils`, not under
`src/`) — reports whether a string value is non-empty. -/
def isNotEmpty (s : String) : Bool := s ≠ ""

/-- Modelled from the spec: the `AuthenticationTypes` enumeration of
`./interfaces` (not under `src/`); the code compares the profile's
`authenticationType` string against the enumeration member *names*
(`AuthenticationTypes[AuthenticationTypes.Integrated]` is the string
`"Integrated"`, and so on). -/
inductive AuthenticationTypes where
  | Integrated
  | SqlLogin
  | ActiveDirectoryUniversal
deriving DecidableEq, Repr

/-- The string name of an `AuthenticationTypes` member, as produced by the
TypeScript reverse enum mapping `AuthenticationTypes[...]`. -/
def AuthenticationTypes.toName : AuthenticationTypes → String
  | .Integrated => "Integrated"
  | .SqlLogin => "SqlLogin"
  | .ActiveDirectoryUniversal => "ActiveDirectoryUniversal"

/-- The fields of `ConnectionProfile` that the excerpted code reads or
writes: the three declared on the class (`profileName`, `savePassword`,
`emptyPasswordInput`) and the scalar credential fields inherited from
`ConnectionCredentials` that `isValidProfile`, `isAzureActiveDirectory`
and the built questions touch.  `new ConnectionProfile()` leaves every
field undefined, which the defaults reproduce. -/
structure ConnectionProfile where
  profileName : Option String := none
  savePassword : Bool := false
  emptyPasswordInput : Bool := false
  server : String := ""
  user : String := ""
  connectionString : String := ""
  authenticationType : String := ""
deriving DecidableEq, Repr

/-- `ConnectionProfile.isValidProfile` (lines 91-106 of the source):
a non-empty connection string is always sufficient; otherwise an
authentication type must be set, the server must be non-empty, and —
except for the `Integrated` and `ActiveDirectoryUniversal` modes — the
user must be non-empty as well. -/
def ConnectionProfile.isValidProfile (p : ConnectionProfile) : Bool :=
  if truthy p.connectionString then
    true
  else if truthy p.authenticationType then
    if p.authenticationType = AuthenticationTypes.Integrated.toName ∨
       p.authenticationType = AuthenticationTypes.ActiveDirectoryUniversal.toName then
      isNotEmpty p.server
    else
      isNotEmpty p.server && isNotEmpty p.user
  else
    false

/-- `ConnectionProfile.isAzureActiveDirectory` (lines 108-110 of the
source): the draft requires the Azure interactive login exactly when its
authentication type is `ActiveDirectoryUniversal`. -/
def ConnectionProfile.isAzureActiveDirectory (p : ConnectionProfile) : Bool :=
  p.authenticationType = AuthenticationTypes.ActiveDirectoryUniversal.toName

/-- The validity rule exactly as the spec states it (§4.3), written from
the spec's words for comparison with the code's `isValidProfile`. -/
def validSpec (p : ConnectionProfile) : Bool :=
  if p.connectionString ≠ "" then
    true
  else if p.authenticationType = "" then
    false
  else if p.authenticationType = "Integrated" ∨
          p.authenticationType = "ActiveDirectoryUniversal" then
    p.server ≠ ""
  else
    p.server ≠ "" && p.user ≠ ""

/-- **C1.** The code's validator agrees with the spec's validity rule on
every draft profile: true on a non-empty connection string regardless of
the other fields; otherwise false when the authentication type is unset;
otherwise, for `Integrated` and `ActiveDirectoryUniversal`, true iff the
server is non-empty (the user field is ignored); for every other
authentication type, true iff both server and user are non-empty. -/
theorem c1_isValidProfile_matches_spec (p : ConnectionProfile) :
    p.isValidProfile = validSpec p := by
  unfold ConnectionProfile.isValidProfile validSpec
  simp only [truthy, isNotEmpty, AuthenticationTypes.toName]
  by_cases hc : p.connectionString = "" <;>
    by_cases ha : p.authenticationType = "" <;>
      simp [hc, ha]

/-- Witness for C1 at a concrete draft. -/
theorem c1_witness :
    ({ server := "db1", user := "admin", authenticationType := "SqlLogin" } :
        ConnectionProfile).isValidProfile
      = validSpec { server := "db1", user := "admin", authenticationType := "SqlLogin" } :=
  c1_isValidProfile_matches_spec
    { server := "db1", user := "admin", authenticationType := "SqlLogin" }

/-- The question kinds of `../prompts/question` used or referenced by the
code (`QuestionTypes.confirm`, `QuestionTypes.input`; `expand` is the
kind of choice questions such as the authentication-type selection). -/
inductive QuestionTypes where
  | input
  | password
  | list
  | confirm
  | expand
deriving DecidableEq, Repr

/-- A value produced by the prompting capability for one question:
confirm questions are answered with booleans, input questions with
strings. -/
inductive AnswerValue where
  | bool (b : Bool)
  | str (s : String)
deriving DecidableEq, Repr

/-- An `IQuestion` descriptor as the code builds it.  In the source the
`shouldPrompt` and `onAnswered` closures capture the mutable `profile`
draft; here they take the current draft explicitly (the `answers`
argument of `shouldPrompt` is ignored by the code's closures, which read
the captured draft instead). -/
structure Question where
  qtype : QuestionTypes
  name : String
  message : String
  placeHolder : Option String := none
  defaultValue : Option String := none
  shouldPrompt : ConnectionProfile → Bool := fun _ => true
  onAnswered : AnswerValue → ConnectionProfile → ConnectionProfile := fun _ p => p

/-- An `INameValueChoice` of the credential layer's
authentication-type choice list. -/
structure NameValueChoice where
  name : String
  value : String
deriving DecidableEq, Repr

/-- Modelled from the spec: the localized string
`LocalizedConstants.msgSavePassword` (module `../constants/localizedConstants`,
not under `src/`), an opaque display string. -/
def msgSavePassword : String := "Save Password? If No, password will be required each time you connect"

/-- Modelled from the spec: the localized string
`LocalizedConstants.profileNamePrompt` (not under `src/`). -/
def profileNamePrompt : String := "Profile Name"

/-- Modelled from the spec: the localized string
`LocalizedConstants.profileNamePlaceholder` (not under `src/`). -/
def profileNamePlaceholder : String := "[Optional] Enter a display name for this connection profile"

/-- The save-password confirm question pushed by `createProfile`
(lines 51-57 of the source): shown only when the draft has no connection
string and the external classifier
`ConnectionCredentials.isPasswordBasedCredential` (not under `src/`,
passed here as a function) reports the draft as password-based; on
answer it sets `savePassword` on the draft. -/
def savePasswordQuestion (isPasswordBasedCredential : ConnectionProfile → Bool) : Question :=
  { qtype := QuestionTypes.confirm
    name := msgSavePassword
    message := msgSavePassword
    shouldPrompt := fun profile =>
      !truthy profile.connectionString && isPasswordBasedCredential profile
    onAnswered := fun value profile =>
      match value with
      | AnswerValue.bool b => { profile with savePassword := b }
      | AnswerValue.str _ => profile }

/-- The profile-name input question pushed by `createProfile`
(lines 58-68 of the source): defaulted from
`defaultProfileValues.profileName` when defaults were supplied; on
answer it sets `profileName` to the value when truthy and to the
explicit `undefined` sentinel otherwise. -/
def profileNameQuestion (defaultProfileValues : Option ConnectionProfile) : Question :=
  { qtype := QuestionTypes.input
    name := profileNamePrompt
    message := profileNamePrompt
    placeHolder := some profileNamePlaceholder
    defaultValue := match defaultProfileValues with
      | some d => d.profileName
      | none => none
    onAnswered := fun value profile =>
      match value with
      | AnswerValue.str s =>
          { profile with profileName := if s = "" then none else some s }
      | AnswerValue.bool _ => profile }

/-- The question sequence handed to the prompter (lines 46-68):
the credential layer's questions followed by the save-password question
and then the profile-name question. -/
def buildQuestions (credentialQuestions : List Question)
    (isPasswordBasedCredential : ConnectionProfile → Bool)
    (defaultProfileValues : Option ConnectionProfile) : List Question :=
  credentialQuestions ++
    [savePasswordQuestion isPasswordBasedCredential,
     profileNameQuestion defaultProfileValues]

/-- The draft profile as it stands after lines 39-44 of `createProfile`:
a fresh `new ConnectionProfile()` whose `authenticationType` is
pre-assigned to the single choice's value when the credential layer
offers exactly one authentication-type choice. -/
def initialDraft (authOptions : List NameValueChoice) : ConnectionProfile :=
  match authOptions with
  | [choice] => { authenticationType := choice.value }
  | _ => {}

/-- The external Azure authentication exchange as `createProfile` drives
it: `AzureController.init()` is awaited (so a failure rejects the whole
call), after which `AzureCodeGrant.startLogin()` is started but *not*
awaited — its eventual value is only passed to `console.log`. -/
structure AzureExchange (ε ρ : Type) where
  init : Except ε Unit
  startLogin : ρ

/-- The observable outcome of one `createProfile` run: the returned
value (`Except.error` models an uncaught exception propagating to the
caller, `Except.ok none` the "not completed" sentinel `undefined`),
together with whether `AzureController.init` was invoked, whether
`startLogin` was started, and whether `isValidProfile` was evaluated. -/
structure CreateOutcome (ε : Type) where
  result : Except ε (Option ConnectionProfile)
  azureInitInvoked : Bool
  startLoginInvoked : Bool
  validatorRun : Bool
deriving Repr

/-- The draft and answers-truthiness after the prompting capability ran:
the prompter receives the built question sequence and the initial draft
(whose fields its `onAnswered` callbacks mutate) and yields the final
draft together with the truthiness of the returned answer set (`false`
models an aborted prompt / no answers). -/
def promptedDraft
    (authOptions : List NameValueChoice)
    (getRequiredCredentialValuesQuestions :
      ConnectionProfile → Option ConnectionProfile → List Question)
    (isPasswordBasedCredential : ConnectionProfile → Bool)
    (defaultProfileValues : Option ConnectionProfile)
    (prompter : List Question → ConnectionProfile → ConnectionProfile × Bool) :
    ConnectionProfile × Bool :=
  let profile := initialDraft authOptions
  prompter
    (buildQuestions
      (getRequiredCredentialValuesQuestions profile defaultProfileValues)
      isPasswordBasedCredential defaultProfileValues)
    profile

/-- `ConnectionProfile.createProfile` (lines 35-88 of the source),
parameterized by its external collaborators: the credential layer's
choice list and question builder, the password classifier, the optional
defaults, the prompting capability, and the Azure exchange.  Inside the
`then` continuation the code first runs the Azure block whenever the
draft `isAzureActiveDirectory()` — *before* looking at `answers` — and
then returns the profile iff `answers` is truthy and `isValidProfile()`
holds, `undefined` otherwise. -/
def createProfile {ε ρ : Type}
    (authOptions : List NameValueChoice)
    (getRequiredCredentialValuesQuestions :
      ConnectionProfile → Option ConnectionProfile → List Question)
    (isPasswordBasedCredential : ConnectionProfile → Bool)
    (defaultProfileValues : Option ConnectionProfile)
    (prompter : List Question → ConnectionProfile → ConnectionProfile × Bool)
    (azure : AzureExchange ε ρ) : CreateOutcome ε :=
  let prompted := promptedDraft authOptions getRequiredCredentialValuesQuestions
    isPasswordBasedCredential defaultProfileValues prompter
  let profile := prompted.1
  let answers := prompted.2
  if profile.isAzureActiveDirectory then
    match azure.init with
    | Except.error e =>
        { result := Except.error e
          azureInitInvoked := true
          startLoginInvoked := false
          validatorRun := false }
    | Except.ok () =>
        { result := Except.ok
            (if answers && profile.isValidProfile then some profile else none)
          azureInitInvoked := true
          startLoginInvoked := true
          validatorRun := answers }
  else
    { result := Except.ok
        (if answers && profile.isValidProfile then some profile else none)
      azureInitInvoked := false
      startLoginInvoked := false
      validatorRun := answers }

/-- Whether an `Except` result is a normal return (no exception). -/
def isOk {ε α : Type} : Except ε α → Bool
  | Except.ok _ => true
  | Except.error _ => false

/-- **C6.** The save-password question's visibility predicate is true on
a draft exactly when the draft's connection string is empty and the
external classifier reports the draft as password-based; equivalently
(second conjunct), on any draft whose connection string is non-empty the
predicate is false, whatever the classifier and authentication type. -/
theorem c6_save_password_visibility
    (isPasswordBasedCredential : ConnectionProfile → Bool)
    (profile : ConnectionProfile) :
    ((savePasswordQuestion isPasswordBasedCredential).shouldPrompt profile = true ↔
      profile.connectionString = "" ∧ isPasswordBasedCredential profile = true)
    ∧ ((savePasswordQuestion isPasswordBasedCredential).shouldPrompt profile = false
        ∨ profile.connectionString = "") := by
  unfold savePasswordQuestion
  simp only [truthy]
  by_cases hc : profile.connectionString = "" <;> simp [hc]

/-- **C7.** The profile-name question's answer callback sets
`profileName` to the answered string when it is non-empty, and to the
explicit `undefined` sentinel (`none`) when it is empty/falsy; in
particular the resulting name is never the empty string and never the
stale previous name of the draft (it is fully determined by the
answered value). -/
theorem c7_profile_name_answer
    (defaultProfileValues : Option ConnectionProfile)
    (value : String) (profile : ConnectionProfile) :
    (((profileNameQuestion defaultProfileValues).onAnswered
        (AnswerValue.str value) profile).profileName
      = if value = "" then none else some value)
    ∧ ((profileNameQuestion defaultProfileValues).onAnswered
        (AnswerValue.str value) profile).profileName ≠ some "" := by
  unfold profileNameQuestion
  by_cases hv : value = "" <;> simp [hv]

/-- A concrete classifier reporting every credential as
password-based, used by witnesses. -/
def alwaysPasswordBased : ConnectionProfile → Bool := fun _ => true

/-- Witness for C6 at a concrete draft that carries a connection
string. -/
theorem c6_witness :
    ((savePasswordQuestion alwaysPasswordBased).shouldPrompt
        { connectionString := "Server=db1" } = true ↔
      ({ connectionString := "Server=db1" } :
          ConnectionProfile).connectionString = ""
        ∧ alwaysPasswordBased { connectionString := "Server=db1" } = true)
    ∧ ((savePasswordQuestion alwaysPasswordBased).shouldPrompt
        { connectionString := "Server=db1" } = false
      ∨ ({ connectionString := "Server=db1" } :
          ConnectionProfile).connectionString = "") :=
  c6_save_password_visibility alwaysPasswordBased { connectionString := "Server=db1" }

/-- Witness for C7 at an empty answered value. -/
theorem c7_witness :
    (((profileNameQuestion none).onAnswered (AnswerValue.str "")
        { profileName := some "stale" }).profileName
      = if "" = "" then none else some "")
    ∧ ((profileNameQuestion none).onAnswered (AnswerValue.str "")
        { profileName := some "stale" }).profileName ≠ some "" :=
  c7_profile_name_answer none "" { profileName := some "stale" }

/-- **C10.** Profile validity is independent of `profileName`,
`savePassword` and `emptyPasswordInput`: any two profile states agreeing
on `connectionString`, `authenticationType`, `server` and `user` get the
same `isValidProfile` verdict. -/
theorem c10_validity_independent_of_name_and_flags
    (p₁ p₂ : ConnectionProfile)
    (hconn : p₁.connectionString = p₂.connectionString)
    (hauth : p₁.authenticationType = p₂.authenticationType)
    (hserver : p₁.server = p₂.server)
    (huser : p₁.user = p₂.user) :
    p₁.isValidProfile = p₂.isValidProfile := by
  unfold ConnectionProfile.isValidProfile
  rw [hconn, hauth, hserver, huser]

/-- Witness for C10 at concrete profiles differing only in
`profileName`, `savePassword` and `emptyPasswordInput`. -/
theorem c10_witness :
    ({ profileName := some "prod", savePassword := true,
       emptyPasswordInput := true, server := "db1", user := "admin",
       connectionString := "", authenticationType := "SqlLogin" } :
        ConnectionProfile).isValidProfile
      = ({ profileName := none, savePassword := false,
           emptyPasswordInput := false, server := "db1", user := "admin",
           connectionString := "", authenticationType := "SqlLogin" } :
            ConnectionProfile).isValidProfile :=
  c10_validity_independent_of_name_and_flags _ _ rfl rfl rfl rfl

/-- **C9.** The question sequence handed to the prompter is the
credential-layer questions followed by exactly two appended questions in
fixed order — the save-password confirmation and then the profile-name
input: the sequence is two longer than the credential list, agrees with
the credential list at every credential index (order preserved), and its
two final positions hold the save-password and profile-name questions. -/
theorem c9_question_sequence_order
    (credentialQuestions : List Question)
    (isPasswordBasedCredential : ConnectionProfile → Bool)
    (defaultProfileValues : Option ConnectionProfile)
    (i : Nat) (hi : i < credentialQuestions.length) :
    (buildQuestions credentialQuestions isPasswordBasedCredential
        defaultProfileValues).length = credentialQuestions.length + 2
    ∧ (buildQuestions credentialQuestions isPasswordBasedCredential
        defaultProfileValues)[i]? = credentialQuestions[i]?
    ∧ (buildQuestions credentialQuestions isPasswordBasedCredential
        defaultProfileValues)[credentialQuestions.length]?
        = some (savePasswordQuestion isPasswordBasedCredential)
    ∧ (buildQuestions credentialQuestions isPasswordBasedCredential
        defaultProfileValues)[credentialQuestions.length + 1]?
        = some (profileNameQuestion defaultProfileValues) := by
  unfold buildQuestions
  refine ⟨by simp, ?_, ?_, ?_⟩
  · rw [List.getElem?_append, if_pos hi]
  · rw [List.getElem?_append_right (Nat.le_refl _)]
    simp
  · rw [List.getElem?_append_right (Nat.le_add_right _ _)]
    simp

/-- A concrete sample credential question used by witnesses. -/
def serverQuestionSample : Question :=
  { qtype := QuestionTypes.input
    name := "server"
    message := "server" }

/-- Witness for C9 on a concrete one-element credential question list. -/
theorem c9_witness :
    0 < ([serverQuestionSample] : List Question).length
    ∧ ((buildQuestions [serverQuestionSample] (fun _ => true) none).length
          = ([serverQuestionSample] : List Question).length + 2
      ∧ (buildQuestions [serverQuestionSample] (fun _ => true) none)[0]?
          = ([serverQuestionSample] : List Question)[0]?
      ∧ (buildQuestions [serverQuestionSample] (fun _ => true) none)[
          ([serverQuestionSample] : List Question).length]?
          = some (savePasswordQuestion (fun _ => true))
      ∧ (buildQuestions [serverQuestionSample] (fun _ => true) none)[
          ([serverQuestionSample] : List Question).length + 1]?
          = some (profileNameQuestion none)) :=
  ⟨Nat.zero_lt_one, c9_question_sequence_order _ _ _ 0 Nat.zero_lt_one⟩

/-- Modelled from the spec: the credential layer's authentication-type
selection question (built inside
`ConnectionCredentials.getRequiredCredentialValuesQuestions`, not under
`src/`) — a choice question whose answer assigns the chosen value to the
draft's `authenticationType`. -/
def authTypeQuestion : Question :=
  { qtype := QuestionTypes.expand
    name := "authenticationType"
    message := "Authentication Type"
    onAnswered := fun value profile =>
      match value with
      | AnswerValue.str s => { profile with authenticationType := s }
      | AnswerValue.bool _ => profile }

/-- Modelled from the spec:
`ConnectionCredentials.getRequiredCredentialValuesQuestions` is not
under `src/`.  Per §4.1, when exactly one authentication-type choice
exists the builder pre-selects it on the draft "not via a question", so
the credential layer emits the authentication-type question only when
more than one choice is offered; `rest` stands for the remaining
credential questions (server, user, password, ...), none of which is
the authentication-type question. -/
def getRequiredCredentialValuesQuestionsSpec
    (authOptions : List NameValueChoice) (rest : List Question) :
    ConnectionProfile → Option ConnectionProfile → List Question :=
  fun _ _ =>
    (if 1 < authOptions.length then [authTypeQuestion] else []) ++ rest

/-- **C8.** With exactly one authentication-type choice, the builder
assigns that choice's value to the draft's `authenticationType` before
prompting and the built question sequence contains no
authentication-type question; with any other number of choices, the
draft's `authenticationType` is left at its unset default by this step. -/
theorem c8_single_auth_choice_preassigned
    (choice : NameValueChoice) (rest : List Question)
    (isPasswordBasedCredential : ConnectionProfile → Bool)
    (defaultProfileValues : Option ConnectionProfile)
    (otherOptions : List NameValueChoice)
    (hrest : authTypeQuestion ∉ rest)
    (hothers : otherOptions.length ≠ 1) :
    (initialDraft [choice]).authenticationType = choice.value
    ∧ authTypeQuestion ∉
        buildQuestions
          (getRequiredCredentialValuesQuestionsSpec [choice] rest
            (initialDraft [choice]) defaultProfileValues)
          isPasswordBasedCredential defaultProfileValues
    ∧ (initialDraft otherOptions).authenticationType = "" := by
  refine ⟨rfl, ?_, ?_⟩
  · unfold buildQuestions getRequiredCredentialValuesQuestionsSpec
    simp only [List.length_cons, List.length_nil, Nat.lt_irrefl, if_false,
      List.nil_append, List.mem_append, List.mem_cons, List.mem_singleton,
      List.not_mem_nil]
    intro h
    rcases h with h | h
    · exact hrest h
    · rcases h with h | h
      · exact absurd (congrArg Question.qtype h) (by
          unfold authTypeQuestion savePasswordQuestion
          simp)
      · rcases h with h | h
        · exact absurd (congrArg Question.qtype h) (by
            unfold authTypeQuestion profileNameQuestion
            simp)
        · exact h.elim
  · unfold initialDraft
    match otherOptions, hothers with
    | [], _ => rfl
    | _ :: _ :: _, _ => rfl
    | [x], h => exact absurd rfl h

/-- Witness for C8 at a concrete single Integrated choice, an empty
remaining-question list and an empty "more than one choice" list. -/
theorem c8_witness :
    authTypeQuestion ∉ ([] : List Question)
    ∧ ([] : List NameValueChoice).length ≠ 1
    ∧ ((initialDraft [{ name := "Integrated", value := "Integrated" }]).authenticationType
        = "Integrated"
      ∧ authTypeQuestion ∉
          buildQuestions
            (getRequiredCredentialValuesQuestionsSpec
              [{ name := "Integrated", value := "Integrated" }] []
              (initialDraft [{ name := "Integrated", value := "Integrated" }]) none)
            (fun _ => true) none
      ∧ (initialDraft ([] : List NameValueChoice)).authenticationType = "") :=
  ⟨List.not_mem_nil _, by decide,
    c8_single_auth_choice_preassigned
      { name := "Integrated", value := "Integrated" } [] (fun _ => true) none []
      (List.not_mem_nil _) (by decide)⟩

/-- A concrete single authentication-type choice whose value is the
Azure interactive mode, used by witnesses and counterexamples. -/
def aadAuthChoice : NameValueChoice :=
  { name := "Azure Active Directory"
    value := "ActiveDirectoryUniversal" }

/-- A concrete credential layer offering no further questions. -/
def noCredQuestions : ConnectionProfile → Option ConnectionProfile → List Question :=
  fun _ _ => []

/-- A concrete prompter behavior: the user aborts immediately — no
callback runs and no answers are returned. -/
def abortPrompter : List Question → ConnectionProfile → ConnectionProfile × Bool :=
  fun _ profile => (profile, false)

/-- A concrete prompter behavior: the user answers, filling in the
server, and the answer set is returned. -/
def serverPrompter : List Question → ConnectionProfile → ConnectionProfile × Bool :=
  fun _ profile => ({ profile with server := "db1" }, true)

/-- A concrete Azure exchange whose initialization succeeds. -/
def okAzure : AzureExchange String Unit :=
  { init := Except.ok ()
    startLogin := () }

/-- A concrete Azure exchange whose initialization succeeds, carrying a
numeric login result, used to vary the login-result slot. -/
def azureWithLogin (r : Nat) : AzureExchange String Nat :=
  { init := Except.ok ()
    startLogin := r }

/-- A concrete Azure exchange whose initialization throws. -/
def errorAzure : AzureExchange String Unit :=
  { init := Except.error "boom"
    startLogin := () }

/-- The concrete draft obtained from a single Azure choice and the
server-filling prompter. -/
def aadDraftSample : ConnectionProfile :=
  { server := "db1"
    authenticationType := "ActiveDirectoryUniversal" }

/-- **C2 (counterexample).** An invocation in which the prompt aborts
(no answers) and yet the Azure exchange *is* invoked: the single offered
authentication-type choice is the Azure interactive mode, so the draft
is pre-assigned `ActiveDirectoryUniversal`, and the code runs the Azure
block before ever looking at `answers`.  The call still returns the
"not completed" sentinel and never runs the validator. -/
theorem c2_counterexample :
    (promptedDraft [aadAuthChoice] noCredQuestions (fun _ => true) none
      abortPrompter).2 = false
    ∧ (@createProfile String Unit [aadAuthChoice] noCredQuestions
        (fun _ => true) none abortPrompter okAzure).azureInitInvoked = true
    ∧ (@createProfile String Unit [aadAuthChoice] noCredQuestions
        (fun _ => true) none abortPrompter okAzure).startLoginInvoked = true
    ∧ (@createProfile String Unit [aadAuthChoice] noCredQuestions
        (fun _ => true) none abortPrompter okAzure).result = Except.ok none
    ∧ (@createProfile String Unit [aadAuthChoice] noCredQuestions
        (fun _ => true) none abortPrompter okAzure).validatorRun = false :=
  ⟨rfl, rfl, rfl, rfl, rfl⟩

/-- **C2 (amended).** When the prompting capability returns an
aborted/empty answer set and the Azure initialization does not throw,
`createProfile` returns the "not completed" sentinel and the validator
is never run; the authentication exchange, however, is not gated on the
answers: it is invoked exactly when the post-prompt draft's
authentication type is the Azure interactive mode, aborted prompt or
not. -/
theorem c2_abort_returns_not_completed {ε ρ : Type}
    (authOptions : List NameValueChoice)
    (getQs : ConnectionProfile → Option ConnectionProfile → List Question)
    (cl : ConnectionProfile → Bool)
    (d : Option ConnectionProfile)
    (prompter : List Question → ConnectionProfile → ConnectionProfile × Bool)
    (azure : AzureExchange ε ρ)
    (habort : (promptedDraft authOptions getQs cl d prompter).2 = false)
    (hinit : azure.init = Except.ok ()) :
    (createProfile authOptions getQs cl d prompter azure).result = Except.ok none
    ∧ (createProfile authOptions getQs cl d prompter azure).validatorRun = false
    ∧ (createProfile authOptions getQs cl d prompter azure).azureInitInvoked
        = (promptedDraft authOptions getQs cl d prompter).1.isAzureActiveDirectory := by
  unfold createProfile
  simp only [hinit, habort]
  split <;> simp_all

/-- Witness for the amended C2 at a concrete aborted invocation. -/
theorem c2_abort_witness :
    (promptedDraft [aadAuthChoice] noCredQuestions (fun _ => true) none
      abortPrompter).2 = false
    ∧ okAzure.init = Except.ok ()
    ∧ ((@createProfile String Unit [aadAuthChoice] noCredQuestions
          (fun _ => true) none abortPrompter okAzure).result = Except.ok none
      ∧ (@createProfile String Unit [aadAuthChoice] noCredQuestions
          (fun _ => true) none abortPrompter okAzure).validatorRun = false
      ∧ (@createProfile String Unit [aadAuthChoice] noCredQuestions
          (fun _ => true) none abortPrompter okAzure).azureInitInvoked
          = (promptedDraft [aadAuthChoice] noCredQuestions (fun _ => true) none
              abortPrompter).1.isAzureActiveDirectory) :=
  ⟨rfl, rfl,
    c2_abort_returns_not_completed [aadAuthChoice] noCredQuestions
      (fun _ => true) none abortPrompter okAzure rfl rfl⟩

/-- **C3.** The Azure exchange runs exactly when the post-prompt draft's
authentication type is the Azure interactive mode (first conjunct, for
an arbitrary unconstrained invocation); and for a draft in that mode
with a non-empty server and no user, when answers were obtained and the
initialization does not throw, `createProfile` starts the login and
still returns the draft as a valid profile — no user is required for
this mode. -/
theorem c3_azure_exchange_exactly_for_aad {ε ρ : Type}
    (authOptions' : List NameValueChoice)
    (getQs' : ConnectionProfile → Option ConnectionProfile → List Question)
    (cl' : ConnectionProfile → Bool)
    (d' : Option ConnectionProfile)
    (prompter' : List Question → ConnectionProfile → ConnectionProfile × Bool)
    (azure' : AzureExchange ε ρ)
    (authOptions : List NameValueChoice)
    (getQs : ConnectionProfile → Option ConnectionProfile → List Question)
    (cl : ConnectionProfile → Bool)
    (d : Option ConnectionProfile)
    (prompter : List Question → ConnectionProfile → ConnectionProfile × Bool)
    (azure : AzureExchange ε ρ)
    (hauth : (promptedDraft authOptions getQs cl d prompter).1.authenticationType
        = "ActiveDirectoryUniversal")
    (hserver : (promptedDraft authOptions getQs cl d prompter).1.server ≠ "")
    (huser : (promptedDraft authOptions getQs cl d prompter).1.user = "")
    (hans : (promptedDraft authOptions getQs cl d prompter).2 = true)
    (hinit : azure.init = Except.ok ()) :
    (createProfile authOptions' getQs' cl' d' prompter' azure').azureInitInvoked
        = (promptedDraft authOptions' getQs' cl' d' prompter').1.isAzureActiveDirectory
    ∧ (createProfile authOptions getQs cl d prompter azure).startLoginInvoked = true
    ∧ (createProfile authOptions getQs cl d prompter azure).result
        = Except.ok (some (promptedDraft authOptions getQs cl d prompter).1)
    ∧ (promptedDraft authOptions getQs cl d prompter).1.isValidProfile = true := by
  have hAAD : (promptedDraft authOptions getQs cl d prompter).1.isAzureActiveDirectory
      = true := by
    unfold ConnectionProfile.isAzureActiveDirectory AuthenticationTypes.toName
    simp [hauth]
  have hvalid : (promptedDraft authOptions getQs cl d prompter).1.isValidProfile
      = true := by
    unfold ConnectionProfile.isValidProfile
    simp only [truthy, isNotEmpty, AuthenticationTypes.toName, hauth, hserver]
    by_cases hc : (promptedDraft authOptions getQs cl d prompter).1.connectionString
        = "" <;> simp [hc, hserver]
  refine ⟨?_, ?_, ?_, hvalid⟩
  · unfold createProfile
    by_cases hA : (promptedDraft authOptions' getQs' cl' d' prompter').1.isAzureActiveDirectory
        = true
    · rcases hi : azure'.init with e | u <;> simp [hA, hi]
    · simp [hA]
  · unfold createProfile
    simp [hAAD, hinit]
  · unfold createProfile
    simp [hAAD, hinit, hans, hvalid]

/-- Witness for C3: a single Azure choice pre-assigns the mode, the
prompter fills in the server and returns answers, and the call returns
the (valid) profile while the login was started. -/
theorem c3_witness :
    (promptedDraft [aadAuthChoice] noCredQuestions (fun _ => true) none
        serverPrompter).1.authenticationType = "ActiveDirectoryUniversal"
    ∧ (promptedDraft [aadAuthChoice] noCredQuestions (fun _ => true) none
        serverPrompter).1.server ≠ ""
    ∧ (promptedDraft [aadAuthChoice] noCredQuestions (fun _ => true) none
        serverPrompter).1.user = ""
    ∧ (promptedDraft [aadAuthChoice] noCredQuestions (fun _ => true) none
        serverPrompter).2 = true
    ∧ okAzure.init = Except.ok ()
    ∧ ((@createProfile String Unit [aadAuthChoice] noCredQuestions
          (fun _ => true) none abortPrompter okAzure).azureInitInvoked
        = (promptedDraft [aadAuthChoice] noCredQuestions (fun _ => true) none
            abortPrompter).1.isAzureActiveDirectory
      ∧ (@createProfile String Unit [aadAuthChoice] noCredQuestions
          (fun _ => true) none serverPrompter okAzure).startLoginInvoked = true
      ∧ (@createProfile String Unit [aadAuthChoice] noCredQuestions
          (fun _ => true) none serverPrompter okAzure).result
          = Except.ok (some (promptedDraft [aadAuthChoice] noCredQuestions
              (fun _ => true) none serverPrompter).1)
      ∧ (promptedDraft [aadAuthChoice] noCredQuestions (fun _ => true) none
          serverPrompter).1.isValidProfile = true) :=
  ⟨rfl, by decide, rfl, rfl, rfl,
    c3_azure_exchange_exactly_for_aad [aadAuthChoice] noCredQuestions
      (fun _ => true) none abortPrompter okAzure [aadAuthChoice] noCredQuestions
      (fun _ => true) none serverPrompter okAzure rfl (by decide) rfl rfl rfl⟩

/-- **C4.** Once answers were obtained, the run's whole observable
outcome is independent of the (never awaited) login result; the
validator is evaluated; and — provided the awaited initialization does
not throw when the Azure mode is active — the call returns the draft
exactly when the validator accepts it. -/
theorem c4_validity_independent_of_exchange {ε ρ : Type}
    (authOptions : List NameValueChoice)
    (getQs : ConnectionProfile → Option ConnectionProfile → List Question)
    (cl : ConnectionProfile → Bool)
    (d : Option ConnectionProfile)
    (prompter : List Question → ConnectionProfile → ConnectionProfile × Bool)
    (init : Except ε Unit) (r₁ r₂ : ρ)
    (hans : (promptedDraft authOptions getQs cl d prompter).2 = true)
    (hinit : (promptedDraft authOptions getQs cl d prompter).1.isAzureActiveDirectory
        = true → init = Except.ok ()) :
    createProfile authOptions getQs cl d prompter
        { init := init, startLogin := r₁ }
      = createProfile authOptions getQs cl d prompter
          { init := init, startLogin := r₂ }
    ∧ (createProfile authOptions getQs cl d prompter
        { init := init, startLogin := r₁ }).validatorRun = true
    ∧ ((createProfile authOptions getQs cl d prompter
          { init := init, startLogin := r₁ }).result
        = Except.ok (some (promptedDraft authOptions getQs cl d prompter).1)
      ↔ (promptedDraft authOptions getQs cl d prompter).1.isValidProfile = true) := by
  refine ⟨rfl, ?_, ?_⟩ <;>
    · unfold createProfile
      by_cases hA : (promptedDraft authOptions getQs cl d prompter).1.isAzureActiveDirectory
          = true
      · rw [hinit hA] at *
        by_cases hv : (promptedDraft authOptions getQs cl d prompter).1.isValidProfile
            = true <;> simp_all
      · by_cases hv : (promptedDraft authOptions getQs cl d prompter).1.isValidProfile
            = true <;> simp_all

/-- Witness for C4 at a concrete answered invocation: the login-result
slot is varied while everything else is fixed. -/
theorem c4_witness :
    (promptedDraft [aadAuthChoice] noCredQuestions (fun _ => true) none
        serverPrompter).2 = true
    ∧ ((promptedDraft [aadAuthChoice] noCredQuestions (fun _ => true) none
          serverPrompter).1.isAzureActiveDirectory = true →
        (azureWithLogin 0).init = Except.ok ())
    ∧ (createProfile [aadAuthChoice] noCredQuestions (fun _ => true) none
          serverPrompter (azureWithLogin 0)
        = createProfile [aadAuthChoice] noCredQuestions (fun _ => true) none
            serverPrompter (azureWithLogin 1)
      ∧ (createProfile [aadAuthChoice] noCredQuestions (fun _ => true) none
          serverPrompter (azureWithLogin 0)).validatorRun = true
      ∧ ((createProfile [aadAuthChoice] noCredQuestions (fun _ => true) none
            serverPrompter (azureWithLogin 0)).result
          = Except.ok (some (promptedDraft [aadAuthChoice] noCredQuestions
              (fun _ => true) none serverPrompter).1)
        ↔ (promptedDraft [aadAuthChoice] noCredQuestions (fun _ => true) none
            serverPrompter).1.isValidProfile = true)) :=
  ⟨rfl, fun _ => rfl,
    c4_validity_independent_of_exchange [aadAuthChoice] noCredQuestions
      (fun _ => true) none serverPrompter (Except.ok ()) 0 1 rfl (fun _ => rfl)⟩

/-- A concrete Azure exchange whose initialization succeeds and whose
(never awaited) login flow fails: the result-type parameter of
`AzureExchange` is instantiated with `Except String Unit` so the value
of the `startLogin` slot is the eventual settlement of the login
promise, here a rejection. -/
def failedLoginAzure : AzureExchange String (Except String Unit) :=
  { init := Except.ok ()
    startLogin := Except.error "login failed" }

/-- A concrete Azure exchange whose initialization throws, over the
same login-settlement result type. -/
def errorAzureWithLogin : AzureExchange String (Except String Unit) :=
  { init := Except.error "boom"
    startLogin := Except.ok () }

/-- **C5 (counterexample).** A failure of the login flow does *not*
propagate to the caller: `startLogin()` is started but never awaited
(its value is only logged), so in this concrete run the login flow's
settlement is a failure, the login was started, and `createProfile`
nevertheless returns a normal, valid profile — refuting the claim's
"any failure thrown by the authentication exchange (controller
initialization or login flow) ... propagates to the caller". -/
theorem c5_counterexample :
    failedLoginAzure.startLogin = Except.error "login failed"
    ∧ (@createProfile String (Except String Unit) [aadAuthChoice] noCredQuestions
        (fun _ => true) none serverPrompter failedLoginAzure).startLoginInvoked
        = true
    ∧ (@createProfile String (Except String Unit) [aadAuthChoice] noCredQuestions
        (fun _ => true) none serverPrompter failedLoginAzure).result
        = Except.ok (some aadDraftSample) :=
  ⟨rfl, rfl, rfl⟩

/-- **C5 (amended).** Every profile `createProfile` returns passed
validation, for an arbitrary, unconstrained invocation (no assumption
on the authentication mode or the exchange); with a non-throwing
initialization the call returns normally (profile or sentinel) for
every prompter behavior, cancellation and invalid input included; a
failure thrown by the awaited `AzureController.init` is not caught and
is propagated to the caller as-is when the Azure mode is active; and
the never-awaited login flow's outcome cannot affect the call at all:
the whole outcome is unchanged under any substitution of the
`startLogin` slot, a failed login included. -/
theorem c5_amended_result_discipline {ε ρ : Type}
    (authOptions : List NameValueChoice)
    (getQs : ConnectionProfile → Option ConnectionProfile → List Question)
    (cl : ConnectionProfile → Bool)
    (d : Option ConnectionProfile)
    (prompter prompter₂ : List Question → ConnectionProfile → ConnectionProfile × Bool)
    (azure azure₁ : AzureExchange ε ρ) (p : ConnectionProfile)
    (authOptions' : List NameValueChoice)
    (getQs' : ConnectionProfile → Option ConnectionProfile → List Question)
    (cl' : ConnectionProfile → Bool)
    (d' : Option ConnectionProfile)
    (prompter' : List Question → ConnectionProfile → ConnectionProfile × Bool)
    (e : ε) (r r₁ r₂ : ρ)
    (hp : (createProfile authOptions getQs cl d prompter azure).result
        = Except.ok (some p))
    (hinit₁ : azure₁.init = Except.ok ())
    (hAAD' : (promptedDraft authOptions' getQs' cl' d' prompter').1.isAzureActiveDirectory
        = true) :
    p.isValidProfile = true
    ∧ isOk (createProfile authOptions getQs cl d prompter₂ azure₁).result = true
    ∧ (createProfile authOptions' getQs' cl' d' prompter'
        { init := Except.error e, startLogin := r }).result = Except.error e
    ∧ createProfile authOptions getQs cl d prompter
        { init := azure.init, startLogin := r₁ }
      = createProfile authOptions getQs cl d prompter
          { init := azure.init, startLogin := r₂ } := by
  refine ⟨?_, ?_, ?_, rfl⟩
  · unfold createProfile at hp
    by_cases hb : ((promptedDraft authOptions getQs cl d prompter).2 &&
        (promptedDraft authOptions getQs cl d prompter).1.isValidProfile) = true
    · have hvalid := (Bool.and_eq_true _ _ |>.mp hb).2
      by_cases hA : (promptedDraft authOptions getQs cl d prompter).1.isAzureActiveDirectory
          = true
      · rcases hi : azure.init with e' | u
        · simp [hA, hi] at hp
        · have hpp : (promptedDraft authOptions getQs cl d prompter).1 = p := by
            simp only [hA, hi, if_true, hb] at hp
            simpa using hp
          rw [← hpp]
          exact hvalid
      · have hpp : (promptedDraft authOptions getQs cl d prompter).1 = p := by
          simp only [hA, if_false, hb] at hp
          simpa [hA] using hp
        rw [← hpp]
        exact hvalid
    · exfalso
      by_cases hA : (promptedDraft authOptions getQs cl d prompter).1.isAzureActiveDirectory
          = true
      · rcases hi : azure.init with e' | u <;> simp [hA, hi, hb] at hp
      · simp [hA, hb] at hp
  · unfold createProfile
    by_cases hA : (promptedDraft authOptions getQs cl d prompter₂).1.isAzureActiveDirectory
        = true <;> simp [hA, hinit₁, isOk]
  · unfold createProfile
    simp [hAAD']

/-- Witness for the amended C5 at concrete invocations: the returned
profile is valid, an aborting prompter still returns normally, an
initialization error propagates, and swapping a failed login settlement
for a successful one leaves the outcome untouched. -/
theorem c5_amended_witness :
    (@createProfile String (Except String Unit) [aadAuthChoice] noCredQuestions
        (fun _ => true) none serverPrompter failedLoginAzure).result
        = Except.ok (some aadDraftSample)
    ∧ failedLoginAzure.init = Except.ok ()
    ∧ (promptedDraft [aadAuthChoice] noCredQuestions (fun _ => true) none
        serverPrompter).1.isAzureActiveDirectory = true
    ∧ (aadDraftSample.isValidProfile = true
      ∧ isOk (@createProfile String (Except String Unit) [aadAuthChoice]
          noCredQuestions (fun _ => true) none abortPrompter
          failedLoginAzure).result = true
      ∧ (@createProfile String (Except String Unit) [aadAuthChoice]
          noCredQuestions (fun _ => true) none serverPrompter
          errorAzureWithLogin).result = Except.error "boom"
      ∧ @createProfile String (Except String Unit) [aadAuthChoice]
          noCredQuestions (fun _ => true) none serverPrompter failedLoginAzure
        = @createProfile String (Except String Unit) [aadAuthChoice]
            noCredQuestions (fun _ => true) none serverPrompter
            { init := failedLoginAzure.init, startLogin := Except.ok () }) :=
  ⟨rfl, rfl, by decide,
    c5_amended_result_discipline [aadAuthChoice] noCredQuestions (fun _ => true)
      none serverPrompter abortPrompter failedLoginAzure failedLoginAzure
      aadDraftSample [aadAuthChoice] noCredQuestions (fun _ => true) none
      serverPrompter "boom" (Except.ok ()) (Except.error "login failed")
      (Except.ok ()) rfl rfl (by decide)⟩

end VscodeMssql
